import Mathlib

/-!
Shallow embedding of the transcription micro-service (`index.js` and its two
variants).  The service accepts a raw audio upload on `POST /transcribe`,
optionally converts it with ffmpeg (conversion-enabled variant), uploads it to
blob storage, transcribes it with a bounded-retry call to the speech-to-text
provider, persists the transcript in the document store, responds, and finally
deletes the temporary files.

External collaborators (filesystem writes, ffmpeg, bucket upload, the provider,
the document store, unlink) are modelled as per-request oracles recorded in the
environment; the handler itself is translated line by line from the source.
-/

namespace TranscriptionMS

/-- The provider's response object (`openai.audio.transcriptions.create`
resolves to an object whose `text` field the handler reads). -/
structure WhisperResponse where
  text : String
deriving DecidableEq, Repr

/-- Result of the `transcribeWithRetry` loop.  In JavaScript the function
either returns the provider response, re-throws the last error, or — when the
`for` loop body never runs because `retries < 1` — falls off the end and
returns `undefined`. -/
inductive RetryResult where
  | success (r : WhisperResponse)
  | thrown (e : String)
  | undefinedResult
deriving DecidableEq, Repr

/-- One provider call per attempt number (1-based), as an oracle:
`.ok` = the `await ... create(...)` resolves, `.error` = it rejects. -/
def Provider : Type := Nat → Except String WhisperResponse

/-- The body of `transcribeWithRetry`'s `for (let attempt = 1; attempt <=
retries; attempt++)` loop, unrolled on the number of remaining iterations.
`attempt` is the current loop counter; `remaining = retries - attempt + 1`.
The second component counts how many times the provider was invoked.
On an error with `remaining = 1` (i.e. `attempt === retries`) the error is
re-thrown; with no remaining iteration the loop exits and the function
returns `undefined`. -/
def retryFrom (provider : Provider) : Nat → Nat → RetryResult × Nat
  | _, 0 => (.undefinedResult, 0)
  | attempt, remaining + 1 =>
    match provider attempt with
    | .ok r => (.success r, 1)
    | .error e =>
      if remaining = 0 then (.thrown e, 1)
      else
        let rest := retryFrom provider (attempt + 1) remaining
        (rest.1, rest.2 + 1)

/-- `transcribeWithRetry(openai, fileStream, language, retries)`: run the loop
starting at attempt 1. -/
def transcribeWithRetry (provider : Provider) (retries : Nat) : RetryResult × Nat :=
  retryFrom provider 1 retries

/-- The handler calls `transcribeWithRetry` with the default `retries = 3`. -/
def defaultRetries : Nat := 3

/-- Reading `response.text` from the value returned by `transcribeWithRetry`:
on `undefined` the property access raises a `TypeError`; a thrown error has
already propagated before any read. -/
def resultText : RetryResult → Except String String
  | .success r => .ok r.text
  | .thrown e => .error e
  | .undefinedResult => .error "TypeError: cannot read property text of undefined"

/-- `req.query.language || "es"`: JavaScript `||` falls back on every falsy
value, so the empty string also selects the default. -/
def jsOrDefault (p : Option String) (d : String) : String :=
  match p with
  | none => d
  | some s => if s = "" then d else s

/-- The HTTP response body: the success JSON, or one of the two literal error
strings the handler sends. -/
inductive Body where
  | okJson (transcription : String) (message : String)
  | errSaving
  | errProcessing
deriving DecidableEq, Repr

/-- The success message sent with the 200 response. -/
def savedMessage : String := "Transcription saved to Firebase Firestore successfully!"

/-- The document written to the `transcriptions` collection (the `timestamp`
field is wall-clock metadata and is not modelled). -/
structure RecordDoc where
  transcription : String
  language : String
  fileURL : String
deriving DecidableEq, Repr

/-- Everything observable about one request once the handler has finished:
the response, the persisted document, how many scratch files were created,
which of them are on disk when the response is sent and when the handler ends,
which collaborators were invoked, and what the cleanup did. -/
structure Outcome where
  status : Nat
  body : Body
  record : Option RecordDoc
  tempCreatedCount : Nat
  convCreatedCount : Nat
  tempOnDisk : Bool
  convOnDisk : Bool
  tempAtResponse : Bool
  convAtResponse : Bool
  uploadCalled : Bool
  providerCalls : Nat
  streamOpens : Nat
  usedLanguage : Option String
  convUnlinkAttempted : Bool
  cleanupErrorLogged : Bool
deriving DecidableEq, Repr

/-- Per-request oracle for the no-conversion variant (`index.js`):
`now` is `Date.now()`, `bucketName` is `bucket.name`; the booleans say whether
`fs.writeFileSync`, `bucket.upload`, `docRef.set` and `fs.unlinkSync` (on an
existing file) succeed; `provider l` is the transcription call for language
`l`, indexed by attempt. -/
structure EnvA where
  now : Nat
  bucketName : String
  writeOk : Bool
  uploadOk : Bool
  languageParam : Option String
  provider : String → Provider
  persistOk : Bool
  unlinkTempOk : Bool

/-- Per-request oracle for the conversion-enabled variant: additionally
whether the ffmpeg conversion succeeds and whether unlinking the existing
converted file succeeds. -/
structure EnvB where
  now : Nat
  bucketName : String
  writeOk : Bool
  convertOk : Bool
  uploadOk : Bool
  languageParam : Option String
  provider : String → Provider
  persistOk : Bool
  unlinkTempOk : Bool
  unlinkConvOk : Bool

/-- `temp_${Date.now()}.webm` (no-conversion variant). -/
def tempNameA (now : Nat) : String := "temp_" ++ toString now ++ ".webm"

/-- `gs://${bucket.name}/audio/${path.basename(tempFilePath)}`. -/
def fileURLA (bucketName : String) (now : Nat) : String :=
  "gs://" ++ bucketName ++ "/audio/" ++ tempNameA now

/-- `${tempFileName}.mp3` (conversion variant uploads the converted file). -/
def convNameB (now : Nat) : String := "temp_" ++ toString now ++ ".mp3"

/-- `gs://${bucket.name}/audio/${path.basename(convertedFilePath)}`. -/
def fileURLB (bucketName : String) (now : Nat) : String :=
  "gs://" ++ bucketName ++ "/audio/" ++ convNameB now

/-- Response-relevant result of the shared tail of the `try` block. -/
structure TailResult where
  status : Nat
  body : Body
  record : Option RecordDoc
  providerCalls : Nat
deriving DecidableEq, Repr

/-- Result of the part of the `try` block from the language default onward
(shared verbatim by both variants): run `transcribeWithRetry` on the single
opened stream, read `.text`, write the Firestore document, and either send
the 200 JSON or let the error fall to the `catch`, which sends the 500.
`res` and `calls` are the two components of the instrumented retry result.
The `undefinedResult` case is the `TypeError` raised by reading `.text` of
`undefined`; it is caught by the same `catch`. -/
def pipelineTail (language : String) (res : RetryResult) (calls : Nat)
    (persistOk : Bool) (url : String) : TailResult :=
  match res with
  | .thrown _ =>
    { status := 500, body := .errProcessing, record := none, providerCalls := calls }
  | .undefinedResult =>
    { status := 500, body := .errProcessing, record := none, providerCalls := calls }
  | .success r =>
    if persistOk then
      { status := 200, body := .okJson r.text savedMessage,
        record := some { transcription := r.text, language := language, fileURL := url },
        providerCalls := calls }
    else
      { status := 500, body := .errProcessing, record := none, providerCalls := calls }

/-- The no-conversion variant's tail: language default, one
`fs.createReadStream`, the retry call, Firestore save, response. -/
def tailA (env : EnvA) : TailResult :=
  let language := jsOrDefault env.languageParam "es"
  let retry := transcribeWithRetry (env.provider language) defaultRetries
  pipelineTail language retry.1 retry.2 env.persistOk (fileURLA env.bucketName env.now)

/-- The conversion variant's tail (identical code, on the converted file). -/
def tailB (env : EnvB) : TailResult :=
  let language := jsOrDefault env.languageParam "es"
  let retry := transcribeWithRetry (env.provider language) defaultRetries
  pipelineTail language retry.1 retry.2 env.persistOk (fileURLB env.bucketName env.now)

/-- What the `try`/`catch` computes before the `finally` runs (the temp file
is already on disk at this point). -/
structure MainResult where
  status : Nat
  body : Body
  record : Option RecordDoc
  convCreated : Bool
  uploadCalled : Bool
  providerCalls : Nat
  streamOpens : Nat
  usedLanguage : Option String
deriving DecidableEq, Repr

/-- `try { await bucket.upload(...); const language = req.query.language ||
"es"; const response = await transcribeWithRetry(openai,
fs.createReadStream(tempFilePath), language); ... } catch { res.status(500) }`
— no-conversion variant.  The read stream is opened exactly once, before the
retry loop. -/
def mainA (env : EnvA) : MainResult :=
  if env.uploadOk = false then
    { status := 500, body := .errProcessing, record := none, convCreated := false,
      uploadCalled := true, providerCalls := 0, streamOpens := 0, usedLanguage := none }
  else
    { status := (tailA env).status, body := (tailA env).body, record := (tailA env).record,
      convCreated := false, uploadCalled := true, providerCalls := (tailA env).providerCalls,
      streamOpens := 1, usedLanguage := some (jsOrDefault env.languageParam "es") }

/-- The `try` block of the conversion-enabled variant: ffmpeg conversion
first; on rejection the `catch` sends the 500 and neither `bucket.upload`
nor the provider is ever invoked.  On success the converted file is uploaded
and streamed to the provider. -/
def mainB (env : EnvB) : MainResult :=
  if env.convertOk = false then
    { status := 500, body := .errProcessing, record := none, convCreated := false,
      uploadCalled := false, providerCalls := 0, streamOpens := 0, usedLanguage := none }
  else if env.uploadOk = false then
    { status := 500, body := .errProcessing, record := none, convCreated := true,
      uploadCalled := true, providerCalls := 0, streamOpens := 0, usedLanguage := none }
  else
    { status := (tailB env).status, body := (tailB env).body, record := (tailB env).record,
      convCreated := true, uploadCalled := true, providerCalls := (tailB env).providerCalls,
      streamOpens := 1, usedLanguage := some (jsOrDefault env.languageParam "es") }

/-- The early `return res.status(500).send("Error saving audio file.")` taken
when `fs.writeFileSync` throws: no temp file exists and the `try`/`finally`
is never entered. -/
def writeFailedOutcome : Outcome :=
  { status := 500, body := .errSaving, record := none,
    tempCreatedCount := 0, convCreatedCount := 0,
    tempOnDisk := false, convOnDisk := false,
    tempAtResponse := false, convAtResponse := false,
    uploadCalled := false, providerCalls := 0, streamOpens := 0,
    usedLanguage := none, convUnlinkAttempted := false,
    cleanupErrorLogged := false }

/-- The `finally` block of the no-conversion variant:
`try { fs.unlinkSync(tempFilePath); } catch (unlinkError) { console.error(...) }`.
The response has already been sent, so the temp file is on disk at response
time in every case; whether it is removed depends only on the unlink. -/
def finishA (env : EnvA) (m : MainResult) : Outcome :=
  if env.unlinkTempOk then
    { status := m.status, body := m.body, record := m.record,
      tempCreatedCount := 1, convCreatedCount := 0,
      tempOnDisk := false, convOnDisk := false,
      tempAtResponse := true, convAtResponse := false,
      uploadCalled := m.uploadCalled, providerCalls := m.providerCalls,
      streamOpens := m.streamOpens, usedLanguage := m.usedLanguage,
      convUnlinkAttempted := false, cleanupErrorLogged := false }
  else
    { status := m.status, body := m.body, record := m.record,
      tempCreatedCount := 1, convCreatedCount := 0,
      tempOnDisk := true, convOnDisk := false,
      tempAtResponse := true, convAtResponse := false,
      uploadCalled := m.uploadCalled, providerCalls := m.providerCalls,
      streamOpens := m.streamOpens, usedLanguage := m.usedLanguage,
      convUnlinkAttempted := false, cleanupErrorLogged := true }

/-- The `finally` block of the conversion-enabled variant: both deletions in
one `try`:
`try { fs.unlinkSync(tempFilePath); fs.unlinkSync(convertedFilePath); } catch ...`.
If the first unlink throws, the second is never attempted.  If the converted
file was never created, its unlink throws `ENOENT`, which the `catch` logs —
a no-op on disk. -/
def finishB (env : EnvB) (m : MainResult) : Outcome :=
  if env.unlinkTempOk = false then
    { status := m.status, body := m.body, record := m.record,
      tempCreatedCount := 1, convCreatedCount := if m.convCreated then 1 else 0,
      tempOnDisk := true, convOnDisk := m.convCreated,
      tempAtResponse := true, convAtResponse := m.convCreated,
      uploadCalled := m.uploadCalled, providerCalls := m.providerCalls,
      streamOpens := m.streamOpens, usedLanguage := m.usedLanguage,
      convUnlinkAttempted := false, cleanupErrorLogged := true }
  else if m.convCreated = false then
    { status := m.status, body := m.body, record := m.record,
      tempCreatedCount := 1, convCreatedCount := 0,
      tempOnDisk := false, convOnDisk := false,
      tempAtResponse := true, convAtResponse := false,
      uploadCalled := m.uploadCalled, providerCalls := m.providerCalls,
      streamOpens := m.streamOpens, usedLanguage := m.usedLanguage,
      convUnlinkAttempted := true, cleanupErrorLogged := true }
  else if env.unlinkConvOk then
    { status := m.status, body := m.body, record := m.record,
      tempCreatedCount := 1, convCreatedCount := 1,
      tempOnDisk := false, convOnDisk := false,
      tempAtResponse := true, convAtResponse := true,
      uploadCalled := m.uploadCalled, providerCalls := m.providerCalls,
      streamOpens := m.streamOpens, usedLanguage := m.usedLanguage,
      convUnlinkAttempted := true, cleanupErrorLogged := false }
  else
    { status := m.status, body := m.body, record := m.record,
      tempCreatedCount := 1, convCreatedCount := 1,
      tempOnDisk := false, convOnDisk := true,
      tempAtResponse := true, convAtResponse := true,
      uploadCalled := m.uploadCalled, providerCalls := m.providerCalls,
      streamOpens := m.streamOpens, usedLanguage := m.usedLanguage,
      convUnlinkAttempted := true, cleanupErrorLogged := true }

/-- The whole `POST /transcribe` handler, no-conversion variant
(`index.js`): write the temp file (early 500 on failure), run the
`try`/`catch`, then the `finally` cleanup. -/
def handleA (env : EnvA) : Outcome :=
  if env.writeOk = false then writeFailedOutcome
  else finishA env (mainA env)

/-- The whole `POST /transcribe` handler, conversion-enabled variant. -/
def handleB (env : EnvB) : Outcome :=
  if env.writeOk = false then writeFailedOutcome
  else finishB env (mainB env)

/-- The five environment variables the conversion-enabled variant requires,
plus whether `admin.initializeApp`/credential construction succeeds (a
black-box collaborator, wrapped in `try { ... } catch { process.exit(1) }`). -/
structure StartupEnv where
  openaiApiKey : Option String
  firebaseProjectId : Option String
  firebaseClientEmail : Option String
  firebasePrivateKey : Option String
  firebaseBucketName : Option String
  firebaseInitOk : Bool

inductive StartupResult where
  | exited (code : Nat)
  | listening
deriving DecidableEq, Repr

/-- `if (!process.env.OPENAI_API_KEY || ... || !process.env.FIREBASE_BUCKET_NAME)`
(conversion-enabled variant, which checks all five). -/
def envCheckB (e : StartupEnv) : Bool :=
  e.openaiApiKey.isSome && e.firebaseProjectId.isSome &&
    e.firebaseClientEmail.isSome && e.firebasePrivateKey.isSome &&
    e.firebaseBucketName.isSome

/-- Startup of the conversion-enabled variant: the five-variable check exits
with code 1 before anything else; then Firebase initialization (its failure
also exits 1); only then `app.listen` runs. -/
def startupB (e : StartupEnv) : StartupResult :=
  if envCheckB e = false then .exited 1
  else if e.firebaseInitOk = false then .exited 1
  else .listening

/-- A provider that always succeeds with "hello world". -/
def providerOk : String → Provider := fun _ _ => .ok ⟨"hello world"⟩

/-- A provider whose first attempt fails (as a consumed stream would make it)
and whose second attempt succeeds. -/
def providerFlaky : String → Provider :=
  fun _ i => if i = 1 then .error "attempt 1 failed" else .ok ⟨"hello world"⟩

/-- Numbered errors, for identifying which attempt's error is re-thrown. -/
def errSeq : Nat → String := fun i => "e" ++ toString i

/-- A provider that fails on every attempt with a numbered error. -/
def providerDead : Provider := fun i => .error (errSeq i)

def envAllOkA : EnvA :=
  { now := 7, bucketName := "bkt", writeOk := true, uploadOk := true,
    languageParam := none, provider := providerOk, persistOk := true,
    unlinkTempOk := true }

def envNoUnlinkA : EnvA := { envAllOkA with unlinkTempOk := false }

def envFlakyA : EnvA := { envAllOkA with provider := providerFlaky }

def envEmptyLangA : EnvA := { envAllOkA with languageParam := some "" }

def envLangEnA : EnvA := { envAllOkA with languageParam := some "en" }

def envDeadA : EnvA := { envAllOkA with provider := fun _ => providerDead }

def envNoPersistA : EnvA := { envAllOkA with persistOk := false }

def envAllOkB : EnvB :=
  { now := 7, bucketName := "bkt", writeOk := true, convertOk := true,
    uploadOk := true, languageParam := none, provider := providerOk,
    persistOk := true, unlinkTempOk := true, unlinkConvOk := true }

def envConvFailB : EnvB := { envAllOkB with convertOk := false }

def envConvFailNoUnlinkB : EnvB := { envConvFailB with unlinkTempOk := false }

def envNoUnlinkB : EnvB := { envAllOkB with unlinkTempOk := false }

def envNoPersistB : EnvB := { envAllOkB with persistOk := false }

def startupAllOk : StartupEnv :=
  { openaiApiKey := some "sk-test", firebaseProjectId := some "proj",
    firebaseClientEmail := some "svc@proj", firebasePrivateKey := some "pem",
    firebaseBucketName := some "bkt", firebaseInitOk := true }

def startupNoBucket : StartupEnv := { startupAllOk with firebaseBucketName := none }

/-- If every attempt in `[attempt, k)` fails and attempt `k` (still within the
remaining budget) succeeds, the loop returns that success after exactly
`k + 1 - attempt` provider calls. -/
theorem retryFrom_success (provider : Provider) (err : Nat → String)
    (r : WhisperResponse) :
    ∀ (remaining attempt k : Nat), attempt ≤ k → k < attempt + remaining →
      (∀ i, attempt ≤ i → i < k → provider i = .error (err i)) →
      provider k = .ok r →
      retryFrom provider attempt remaining = (.success r, k + 1 - attempt) := by
  intro remaining
  induction remaining with
  | zero =>
    intro attempt k h1 h2 _ _
    exfalso; omega
  | succ n ih =>
    intro attempt k h1 h2 hfail hk
    by_cases hak : attempt = k
    · have hone : k + 1 - attempt = 1 := by omega
      subst hak
      simp [retryFrom, hk, hone]
    · have hlt : attempt < k := lt_of_le_of_ne h1 hak
      have hpa : provider attempt = .error (err attempt) := hfail attempt le_rfl hlt
      have hn : n ≠ 0 := by omega
      have hrec := ih (attempt + 1) k (by omega) (by omega)
        (fun i hi1 hi2 => hfail i (by omega) hi2) hk
      simp [retryFrom, hpa, hn, hrec]
      omega

/-- If every attempt in the whole remaining budget fails, the loop re-throws
the error of the last attempt after using the full budget. -/
theorem retryFrom_exhaust (provider : Provider) (err : Nat → String) :
    ∀ (remaining attempt : Nat), 1 ≤ remaining →
      (∀ i, attempt ≤ i → i < attempt + remaining → provider i = .error (err i)) →
      retryFrom provider attempt remaining =
        (.thrown (err (attempt + remaining - 1)), remaining) := by
  intro remaining
  induction remaining with
  | zero => intro attempt h; exfalso; omega
  | succ n ih =>
    intro attempt _ hfail
    have hpa : provider attempt = .error (err attempt) := by
      exact hfail attempt le_rfl (by omega)
    by_cases hn : n = 0
    · subst hn
      have hlast : attempt + 1 - 1 = attempt := by omega
      simp [retryFrom, hpa, hlast]
    · have hrec := ih (attempt + 1) (by omega)
        (fun i hi1 hi2 => hfail i (by omega) (by omega))
      have hlast : attempt + 1 + n - 1 = attempt + (n + 1) - 1 := by omega
      simp [retryFrom, hpa, hn, hrec, hlast]

/-- The loop never invokes the provider more often than the remaining budget. -/
theorem retryFrom_calls_le (provider : Provider) :
    ∀ (remaining attempt : Nat), (retryFrom provider attempt remaining).2 ≤ remaining := by
  intro remaining
  induction remaining with
  | zero => intro attempt; simp [retryFrom]
  | succ n ih =>
    intro attempt
    rcases hp : provider attempt with e | r
    · by_cases hn : n = 0
      · subst hn; simp [retryFrom, hp]
      · have := ih (attempt + 1)
        simp [retryFrom, hp, hn]
        omega
    · simp [retryFrom, hp]

/-- With at least one remaining iteration the loop invokes the provider. -/
theorem retryFrom_calls_pos (provider : Provider) (remaining attempt : Nat)
    (h : 1 ≤ remaining) : 1 ≤ (retryFrom provider attempt remaining).2 := by
  rcases remaining with _ | n
  · exfalso; omega
  · rcases hp : provider attempt with e | r
    · by_cases hn : n = 0
      · subst hn; simp [retryFrom, hp]
      · simp [retryFrom, hp, hn]
    · simp [retryFrom, hp]

/-- With at least one remaining iteration the loop never returns `undefined`. -/
theorem retryFrom_ne_undefined (provider : Provider) :
    ∀ (remaining attempt : Nat), 1 ≤ remaining →
      (retryFrom provider attempt remaining).1 ≠ .undefinedResult := by
  intro remaining
  induction remaining with
  | zero => intro attempt h; exfalso; omega
  | succ n ih =>
    intro attempt _
    rcases hp : provider attempt with e | r
    · by_cases hn : n = 0
      · subst hn; simp [retryFrom, hp]
      · have := ih (attempt + 1) (by omega)
        simp [retryFrom, hp, hn]
        exact this
    · simp [retryFrom, hp]

/-- The `finally` of the no-conversion variant copies the response and the
instrumentation of the `try`/`catch` and only decides the final disk state. -/
theorem finishA_proj (env : EnvA) (m : MainResult) :
    (finishA env m).status = m.status ∧ (finishA env m).body = m.body ∧
      (finishA env m).record = m.record ∧
      (finishA env m).uploadCalled = m.uploadCalled ∧
      (finishA env m).providerCalls = m.providerCalls ∧
      (finishA env m).streamOpens = m.streamOpens ∧
      (finishA env m).usedLanguage = m.usedLanguage ∧
      (finishA env m).tempCreatedCount = 1 ∧
      (finishA env m).convCreatedCount = 0 ∧
      (finishA env m).tempAtResponse = true ∧
      (finishA env m).convAtResponse = false ∧
      (finishA env m).convOnDisk = false ∧
      (finishA env m).tempOnDisk = !env.unlinkTempOk ∧
      (finishA env m).cleanupErrorLogged = !env.unlinkTempOk := by
  cases h : env.unlinkTempOk <;> simp [finishA, h]

/-- The `finally` of the conversion variant likewise copies the response. -/
theorem finishB_proj (env : EnvB) (m : MainResult) :
    (finishB env m).status = m.status ∧ (finishB env m).body = m.body ∧
      (finishB env m).record = m.record ∧
      (finishB env m).uploadCalled = m.uploadCalled ∧
      (finishB env m).providerCalls = m.providerCalls ∧
      (finishB env m).streamOpens = m.streamOpens ∧
      (finishB env m).usedLanguage = m.usedLanguage ∧
      (finishB env m).tempCreatedCount = 1 ∧
      (finishB env m).convCreatedCount = (if m.convCreated then 1 else 0) ∧
      (finishB env m).tempAtResponse = true ∧
      (finishB env m).convAtResponse = m.convCreated ∧
      (finishB env m).tempOnDisk = !env.unlinkTempOk := by
  cases h1 : env.unlinkTempOk <;> cases h2 : m.convCreated <;>
    cases h3 : env.unlinkConvOk <;> simp [finishB, h1, h2, h3]

/-- Once the conversion has succeeded, a converted file exists. -/
theorem mainB_convCreated (env : EnvB) (hc : env.convertOk = true) :
    (mainB env).convCreated = true := by
  cases hu : env.uploadOk <;> simp [mainB, hc, hu]

/-- Every branch of the shared tail reports the retry loop's call count. -/
theorem pipelineTail_calls (language : String) (res : RetryResult) (calls : Nat)
    (persistOk : Bool) (url : String) :
    (pipelineTail language res calls persistOk url).providerCalls = calls := by
  cases res <;> cases persistOk <;> simp [pipelineTail]

example : transcribeWithRetry (fun _ => .ok ⟨"hola"⟩) 3 = (.success ⟨"hola"⟩, 1) := by
  decide

example :
    transcribeWithRetry (fun i => if i = 1 then .error "e1" else .ok ⟨"hola"⟩) 3 =
      (.success ⟨"hola"⟩, 2) := by
  decide

example :
    transcribeWithRetry (fun i => .error ("e" ++ toString i)) 3 = (.thrown "e3", 3) := by
  decide

example : transcribeWithRetry (fun _ => .ok ⟨"hola"⟩) 0 = (.undefinedResult, 0) := by
  decide

example : (handleA envAllOkA).status = 200 ∧
    (handleA envAllOkA).record =
      some { transcription := "hello world", language := "es",
             fileURL := "gs://bkt/audio/temp_7.webm" } := by
  decide

example : (handleB envAllOkB).status = 200 ∧
    (handleB envAllOkB).record =
      some { transcription := "hello world", language := "es",
             fileURL := "gs://bkt/audio/temp_7.mp3" } := by
  decide

example : (handleB envConvFailB).status = 500 ∧ (handleB envConvFailB).uploadCalled = false := by
  decide

/-- C2: `transcribeWithRetry` with bound `N` returns the first successful
provider response if one occurs by the `N`-th attempt (after exactly that
many provider calls), re-throws the last error when all `N` attempts fail,
and never invokes the provider more than `N` times; in the handler (whose
bound is the default 3) the success case yields the 200 pipeline completion
and the exhausted case aborts the pipeline with a 500 and performs cleanup. -/
theorem claim_C2_retry (provider : Provider) (err : Nat → String)
    (r : WhisperResponse) (N k : Nat) :
    (1 ≤ k → k ≤ N → (∀ i, 1 ≤ i → i < k → provider i = .error (err i)) →
      provider k = .ok r → transcribeWithRetry provider N = (.success r, k)) ∧
    (1 ≤ N → (∀ i, 1 ≤ i → i ≤ N → provider i = .error (err i)) →
      transcribeWithRetry provider N = (.thrown (err N), N)) ∧
    (transcribeWithRetry provider N).2 ≤ N ∧
    (∀ env : EnvA, env.writeOk = true → env.uploadOk = true → env.persistOk = true →
      1 ≤ k → k ≤ defaultRetries →
      (∀ l i, 1 ≤ i → i < k → env.provider l i = .error (err i)) →
      (∀ l, env.provider l k = .ok r) →
      (handleA env).status = 200 ∧ (handleA env).providerCalls = k ∧
        (handleA env).record.isSome = true) ∧
    (∀ env : EnvA, env.writeOk = true → env.uploadOk = true → env.unlinkTempOk = true →
      (∀ l i, 1 ≤ i → i ≤ defaultRetries → env.provider l i = .error (err i)) →
      (handleA env).status = 500 ∧ (handleA env).providerCalls = defaultRetries ∧
        (handleA env).record = none ∧ (handleA env).tempOnDisk = false) := by
  refine ⟨?_, ?_, ?_, ?_, ?_⟩
  · intro hk1 hkN hfail hok
    have h := retryFrom_success provider err r N 1 k hk1 (by omega) hfail hok
    simpa [transcribeWithRetry] using h
  · intro hN hfail
    have h := retryFrom_exhaust provider err N 1 hN
      (fun i h1 h2 => hfail i h1 (by omega))
    have hlast : 1 + N - 1 = N := by omega
    rw [hlast] at h
    simpa [transcribeWithRetry] using h
  · exact retryFrom_calls_le provider N 1
  · intro env hw hu hp hk1 hkN hfail hok
    have hretry : transcribeWithRetry
        (env.provider (jsOrDefault env.languageParam "es")) defaultRetries =
        (.success r, k) := by
      have h := retryFrom_success (env.provider (jsOrDefault env.languageParam "es"))
        err r defaultRetries 1 k hk1 (by simp [defaultRetries] at hkN ⊢; omega)
        (fun i h1 h2 => hfail _ i h1 h2) (hok _)
      simpa [transcribeWithRetry] using h
    have htail : tailA env = pipelineTail (jsOrDefault env.languageParam "es")
        (.success r) k env.persistOk (fileURLA env.bucketName env.now) := by
      simp [tailA, hretry]
    have hm : (mainA env).status = 200 ∧ (mainA env).providerCalls = k ∧
        (mainA env).record.isSome = true := by
      simp [mainA, hu, htail, pipelineTail, hp]
    have hh : handleA env = finishA env (mainA env) := by simp [handleA, hw]
    obtain ⟨hs, _, hr, _, hpc, _⟩ := finishA_proj env (mainA env)
    refine ⟨?_, ?_, ?_⟩
    · rw [hh, hs]; exact hm.1
    · rw [hh, hpc]; exact hm.2.1
    · rw [hh, hr]; exact hm.2.2
  · intro env hw hu hul hfail
    have hretry : transcribeWithRetry
        (env.provider (jsOrDefault env.languageParam "es")) defaultRetries =
        (.thrown (err defaultRetries), defaultRetries) := by
      have h := retryFrom_exhaust (env.provider (jsOrDefault env.languageParam "es"))
        err defaultRetries 1 (by simp [defaultRetries])
        (fun i h1 h2 => hfail _ i h1 (by simp [defaultRetries] at h2 ⊢; omega))
      have hlast : 1 + defaultRetries - 1 = defaultRetries := by omega
      rw [hlast] at h
      simpa [transcribeWithRetry] using h
    have htail : tailA env = pipelineTail (jsOrDefault env.languageParam "es")
        (.thrown (err defaultRetries)) defaultRetries env.persistOk
        (fileURLA env.bucketName env.now) := by
      simp [tailA, hretry]
    have hm : (mainA env).status = 500 ∧ (mainA env).providerCalls = defaultRetries ∧
        (mainA env).record = none := by
      simp [mainA, hu, htail, pipelineTail]
    have hh : handleA env = finishA env (mainA env) := by simp [handleA, hw]
    obtain ⟨hs, _, hr, _, hpc, _, _, _, _, _, _, _, htd, _⟩ := finishA_proj env (mainA env)
    refine ⟨?_, ?_, ?_, ?_⟩
    · rw [hh, hs]; exact hm.1
    · rw [hh, hpc]; exact hm.2.1
    · rw [hh, hr]; exact hm.2.2
    · rw [hh, htd, hul]; rfl

/-- C2 witness: a provider failing once then succeeding completes in 2 calls;
a provider failing every attempt exhausts the bound of 3, re-throws the
third error, and in the handler yields the 500 with cleanup done. -/
theorem claim_C2_retry_witness :
    transcribeWithRetry (providerFlaky "es") defaultRetries =
      (.success ⟨"hello world"⟩, 2) ∧
    transcribeWithRetry providerDead defaultRetries = (.thrown (errSeq 3), 3) ∧
    (handleA envDeadA).status = 500 ∧ (handleA envDeadA).tempOnDisk = false ∧
    (handleA envFlakyA).status = 200 ∧ (handleA envFlakyA).providerCalls = 2 := by
  refine ⟨?_, ?_, ?_, ?_, ?_, ?_⟩
  · exact (claim_C2_retry (providerFlaky "es") (fun _ => "attempt 1 failed")
      ⟨"hello world"⟩ 3 2).1 (by omega) (by omega)
      (fun i h1 h2 => by
        have hi : i = 1 := by omega
        subst hi; rfl)
      rfl
  · exact (claim_C2_retry providerDead errSeq ⟨"hello world"⟩ 3 1).2.1 (by omega)
      (fun i h1 h2 => rfl)
  · exact ((claim_C2_retry providerDead errSeq ⟨"hello world"⟩ 3 1).2.2.2.2 envDeadA
      rfl rfl rfl (fun l i h1 h2 => rfl)).1
  · exact ((claim_C2_retry providerDead errSeq ⟨"hello world"⟩ 3 1).2.2.2.2 envDeadA
      rfl rfl rfl (fun l i h1 h2 => rfl)).2.2.2
  · exact ((claim_C2_retry providerDead (fun _ => "attempt 1 failed")
      ⟨"hello world"⟩ 3 2).2.2.2.1 envFlakyA rfl rfl rfl (by omega) (by decide)
      (fun l i h1 h2 => by
        have hi : i = 1 := by omega
        subst hi; rfl)
      (fun l => rfl)).1
  · exact ((claim_C2_retry providerDead (fun _ => "attempt 1 failed")
      ⟨"hello world"⟩ 3 2).2.2.2.1 envFlakyA rfl rfl rfl (by omega) (by decide)
      (fun l i h1 h2 => by
        have hi : i = 1 := by omega
        subst hi; rfl)
      (fun l => rfl)).2.1

/-- C3: the code opens the read stream once, before the retry loop, and every
attempt receives that same stream object — on a request needing two attempts
the provider is called twice but only one stream is ever opened, so the
re-open-per-attempt property claimed by the spec does not hold of the code. -/
theorem claim_C3_single_stream_open :
    (handleA envFlakyA).providerCalls = 2 ∧ (handleA envFlakyA).streamOpens = 1 ∧
      (handleA envFlakyA).streamOpens < (handleA envFlakyA).providerCalls ∧
      (handleA envFlakyA).status = 200 := by
  decide

/-- C10: with a retry bound below 1 the loop body never runs: the provider is
invoked zero times and the function returns `undefined`, whose `.text` read
then raises a `TypeError`; with a bound of at least 1 the result is never
`undefined`. -/
theorem claim_C10_zero_retries :
    (∀ (p : Provider) (n : Nat), n < 1 → transcribeWithRetry p n = (.undefinedResult, 0)) ∧
    (∀ p : Provider,
      resultText (transcribeWithRetry p 0).1 =
        .error "TypeError: cannot read property text of undefined") ∧
    (∀ (p : Provider) (n : Nat), 1 ≤ n →
      (transcribeWithRetry p n).1 ≠ .undefinedResult) := by
  refine ⟨?_, ?_, ?_⟩
  · intro p n hn
    have h0 : n = 0 := by omega
    subst h0
    rfl
  · intro p; rfl
  · intro p n hn
    exact retryFrom_ne_undefined p n 1 hn

/-- C10 witness: at bound 0 the always-failing provider is never consulted and
`undefined` comes back; at the default bound 3 the result is never
`undefined`. -/
theorem claim_C10_zero_retries_witness :
    transcribeWithRetry providerDead 0 = (.undefinedResult, 0) ∧
    (transcribeWithRetry providerDead 3).1 ≠ .undefinedResult :=
  ⟨claim_C10_zero_retries.1 providerDead 0 (by omega),
   claim_C10_zero_retries.2.2 providerDead 3 (by omega)⟩

/-- C1 counterexample: a fully successful request whose cleanup unlink fails
gets the 200 response, yet its scratch file is still on disk after the
response — so "every scratch file created during the request is removed from
disk" does not hold as stated. -/
theorem claim_C1_counterexample :
    (handleA envNoUnlinkA).status = 200 ∧
      (handleA envNoUnlinkA).tempCreatedCount = 1 ∧
      (handleA envNoUnlinkA).tempOnDisk = true ∧
      (handleA envNoUnlinkA).cleanupErrorLogged = true := by
  decide

/-- C1 amended: a cleanup failure never changes the status, body or persisted
record of the response (in either variant); whenever the unlink of an
existing file succeeds (both unlinks, in the conversion variant) no scratch
or converted file survives the request; a failed unlink is logged; and
unlinking the absent converted file after a failed conversion is caught and
is a no-op on disk. -/
theorem claim_C1_cleanup_amended :
    (∀ (e : EnvA) (b : Bool),
      (handleA { e with unlinkTempOk := b }).status = (handleA e).status ∧
        (handleA { e with unlinkTempOk := b }).body = (handleA e).body ∧
        (handleA { e with unlinkTempOk := b }).record = (handleA e).record) ∧
    (∀ e : EnvA, e.unlinkTempOk = true →
      (handleA e).tempOnDisk = false ∧ (handleA e).convOnDisk = false) ∧
    (∀ e : EnvA, e.unlinkTempOk = false → e.writeOk = true →
      (handleA e).cleanupErrorLogged = true) ∧
    (∀ (e : EnvB) (b c : Bool),
      (handleB { e with unlinkTempOk := b, unlinkConvOk := c }).status =
          (handleB e).status ∧
        (handleB { e with unlinkTempOk := b, unlinkConvOk := c }).body =
          (handleB e).body ∧
        (handleB { e with unlinkTempOk := b, unlinkConvOk := c }).record =
          (handleB e).record) ∧
    (∀ e : EnvB, e.unlinkTempOk = true → e.unlinkConvOk = true →
      (handleB e).tempOnDisk = false ∧ (handleB e).convOnDisk = false) ∧
    (∀ e : EnvB, e.writeOk = true → e.convertOk = false → e.unlinkTempOk = true →
      (handleB e).convUnlinkAttempted = true ∧
        (handleB e).cleanupErrorLogged = true ∧ (handleB e).convOnDisk = false) := by
  refine ⟨?_, ?_, ?_, ?_, ?_, ?_⟩
  · intro e b
    by_cases hw : e.writeOk = true
    · have hnot : ¬(e.writeOk = false) := by simp [hw]
      have hh1 : handleA { e with unlinkTempOk := b } =
          finishA { e with unlinkTempOk := b }
            (mainA { e with unlinkTempOk := b }) := by
        unfold handleA
        exact if_neg hnot
      have hh2 : handleA e = finishA e (mainA e) := by
        unfold handleA
        exact if_neg hnot
      have hm : mainA { e with unlinkTempOk := b } = mainA e := rfl
      rw [hh1, hh2, hm]
      obtain ⟨hs1, hb1, hr1, _⟩ := finishA_proj { e with unlinkTempOk := b } (mainA e)
      obtain ⟨hs2, hb2, hr2, _⟩ := finishA_proj e (mainA e)
      exact ⟨hs1.trans hs2.symm, hb1.trans hb2.symm, hr1.trans hr2.symm⟩
    · have hw' : e.writeOk = false := by
        cases hb2 : e.writeOk
        · rfl
        · exact absurd hb2 hw
      have hh1 : handleA { e with unlinkTempOk := b } = writeFailedOutcome := by
        unfold handleA
        exact if_pos hw'
      have hh2 : handleA e = writeFailedOutcome := by
        unfold handleA
        exact if_pos hw'
      rw [hh1, hh2]
      exact ⟨rfl, rfl, rfl⟩
  · intro e h
    cases hw : e.writeOk
    · simp [handleA, hw, writeFailedOutcome]
    · simp [handleA, hw, finishA, h]
  · intro e h hw
    simp [handleA, hw, finishA, h]
  · intro e b c
    by_cases hw : e.writeOk = true
    · have hnot : ¬(e.writeOk = false) := by simp [hw]
      have hh1 : handleB { e with unlinkTempOk := b, unlinkConvOk := c } =
          finishB { e with unlinkTempOk := b, unlinkConvOk := c }
            (mainB { e with unlinkTempOk := b, unlinkConvOk := c }) := by
        unfold handleB
        exact if_neg hnot
      have hh2 : handleB e = finishB e (mainB e) := by
        unfold handleB
        exact if_neg hnot
      have hm : mainB { e with unlinkTempOk := b, unlinkConvOk := c } = mainB e := rfl
      rw [hh1, hh2, hm]
      obtain ⟨hs1, hb1, hr1, _⟩ :=
        finishB_proj { e with unlinkTempOk := b, unlinkConvOk := c } (mainB e)
      obtain ⟨hs2, hb2, hr2, _⟩ := finishB_proj e (mainB e)
      exact ⟨hs1.trans hs2.symm, hb1.trans hb2.symm, hr1.trans hr2.symm⟩
    · have hw' : e.writeOk = false := by
        cases hb2 : e.writeOk
        · rfl
        · exact absurd hb2 hw
      have hh1 : handleB { e with unlinkTempOk := b, unlinkConvOk := c } =
          writeFailedOutcome := by
        unfold handleB
        exact if_pos hw'
      have hh2 : handleB e = writeFailedOutcome := by
        unfold handleB
        exact if_pos hw'
      rw [hh1, hh2]
      exact ⟨rfl, rfl, rfl⟩
  · intro e h1 h2
    cases hw : e.writeOk
    · simp [handleB, hw, writeFailedOutcome]
    · have hh : handleB e = finishB e (mainB e) := by simp [handleB, hw]
      rw [hh]
      cases hcc : (mainB e).convCreated <;> simp [finishB, h1, h2, hcc]
  · intro e hw hc hu
    have hm : mainB e =
        { status := 500, body := .errProcessing, record := none,
          convCreated := false, uploadCalled := false, providerCalls := 0,
          streamOpens := 0, usedLanguage := none } := by
      simp [mainB, hc]
    have hh : handleB e = finishB e (mainB e) := by simp [handleB, hw]
    rw [hh, hm]
    simp [finishB, hu]

/-- C1 witness: cleanup removes the files of a fully successful request in
both variants, clears the temp file after a failed conversion, and a failed
unlink leaves the 200 status untouched. -/
theorem claim_C1_cleanup_witness :
    (handleA envAllOkA).tempOnDisk = false ∧ (handleA envAllOkA).convOnDisk = false ∧
      (handleB envAllOkB).tempOnDisk = false ∧ (handleB envAllOkB).convOnDisk = false ∧
      (handleB envConvFailB).convUnlinkAttempted = true ∧
      (handleB envConvFailB).convOnDisk = false ∧
      (handleA { envAllOkA with unlinkTempOk := false }).status =
        (handleA envAllOkA).status := by
  refine ⟨?_, ?_, ?_, ?_, ?_, ?_, ?_⟩
  · exact (claim_C1_cleanup_amended.2.1 envAllOkA rfl).1
  · exact (claim_C1_cleanup_amended.2.1 envAllOkA rfl).2
  · exact (claim_C1_cleanup_amended.2.2.2.2.1 envAllOkB rfl rfl).1
  · exact (claim_C1_cleanup_amended.2.2.2.2.1 envAllOkB rfl rfl).2
  · exact (claim_C1_cleanup_amended.2.2.2.2.2 envConvFailB rfl rfl rfl).1
  · exact (claim_C1_cleanup_amended.2.2.2.2.2 envConvFailB rfl rfl rfl).2.2
  · exact (claim_C1_cleanup_amended.1 envAllOkA false).1

/-- C4 counterexample: on a fully successful request the scratch file is
still on disk at the moment the 200 response is sent (cleanup runs in the
`finally`, after `res.json`), so "removed before the HTTP response is sent"
is false as stated. -/
theorem claim_C4_counterexample :
    (handleA envAllOkA).status = 200 ∧ (handleA envAllOkA).tempAtResponse = true ∧
      (handleA envAllOkA).tempOnDisk = false := by
  decide

/-- C4 amended: for every request that reaches the transcription stage,
exactly one scratch file is created (plus exactly one converted file in the
conversion variant), both files are still present when the response is sent,
and both are removed immediately after the response — before the handler
completes — provided the unlink calls succeed, regardless of which stage
failed. -/
theorem claim_C4_lifecycle_amended :
    (∀ e : EnvA, e.writeOk = true → e.uploadOk = true →
      (handleA e).tempCreatedCount = 1 ∧ (handleA e).convCreatedCount = 0 ∧
        1 ≤ (handleA e).providerCalls ∧ (handleA e).tempAtResponse = true ∧
        (e.unlinkTempOk = true →
          (handleA e).tempOnDisk = false ∧ (handleA e).convOnDisk = false)) ∧
    (∀ e : EnvB, e.writeOk = true → e.convertOk = true → e.uploadOk = true →
      (handleB e).tempCreatedCount = 1 ∧ (handleB e).convCreatedCount = 1 ∧
        1 ≤ (handleB e).providerCalls ∧ (handleB e).tempAtResponse = true ∧
        (handleB e).convAtResponse = true ∧
        (e.unlinkTempOk = true → e.unlinkConvOk = true →
          (handleB e).tempOnDisk = false ∧ (handleB e).convOnDisk = false)) := by
  constructor
  · intro e hw hu
    have hh : handleA e = finishA e (mainA e) := by simp [handleA, hw]
    obtain ⟨hs, hb, hr, huc, hpc, hso, hul, htcc, hccc, htar, hcar, hcod, htod, hcel⟩ :=
      finishA_proj e (mainA e)
    refine ⟨by rw [hh, htcc], by rw [hh, hccc], ?_, by rw [hh, htar], ?_⟩
    · rw [hh, hpc]
      have hcalls : (mainA e).providerCalls =
          (transcribeWithRetry
            (e.provider (jsOrDefault e.languageParam "es")) defaultRetries).2 := by
        simp [mainA, hu, tailA, pipelineTail_calls]
      rw [hcalls]
      exact retryFrom_calls_pos _ defaultRetries 1 (by simp [defaultRetries])
    · intro hulOk
      refine ⟨?_, by rw [hh, hcod]⟩
      rw [hh, htod, hulOk]
      rfl
  · intro e hw hc hu
    have hh : handleB e = finishB e (mainB e) := by simp [handleB, hw]
    have hcc := mainB_convCreated e hc
    obtain ⟨hs, hb, hr, huc, hpc, hso, hul, htcc, hccc, htar, hcar, htod⟩ :=
      finishB_proj e (mainB e)
    refine ⟨by rw [hh, htcc], ?_, ?_, by rw [hh, htar], ?_, ?_⟩
    · rw [hh, hccc, hcc]
      rfl
    · rw [hh, hpc]
      have hcalls : (mainB e).providerCalls =
          (transcribeWithRetry
            (e.provider (jsOrDefault e.languageParam "es")) defaultRetries).2 := by
        simp [mainB, hc, hu, tailB, pipelineTail_calls]
      rw [hcalls]
      exact retryFrom_calls_pos _ defaultRetries 1 (by simp [defaultRetries])
    · rw [hh, hcar, hcc]
    · intro h1 h2
      rw [hh]
      simp [finishB, h1, h2, hcc]

/-- C4 witness: concrete fully successful requests in both variants create
exactly the expected files and end with them deleted. -/
theorem claim_C4_lifecycle_witness :
    (handleA envAllOkA).tempCreatedCount = 1 ∧
      (handleA envAllOkA).convCreatedCount = 0 ∧
      (handleA envAllOkA).tempOnDisk = false ∧
      (handleB envAllOkB).tempCreatedCount = 1 ∧
      (handleB envAllOkB).convCreatedCount = 1 ∧
      (handleB envAllOkB).convAtResponse = true ∧
      (handleB envAllOkB).convOnDisk = false := by
  refine ⟨?_, ?_, ?_, ?_, ?_, ?_, ?_⟩
  · exact (claim_C4_lifecycle_amended.1 envAllOkA rfl rfl).1
  · exact (claim_C4_lifecycle_amended.1 envAllOkA rfl rfl).2.1
  · exact ((claim_C4_lifecycle_amended.1 envAllOkA rfl rfl).2.2.2.2 rfl).1
  · exact (claim_C4_lifecycle_amended.2 envAllOkB rfl rfl rfl).1
  · exact (claim_C4_lifecycle_amended.2 envAllOkB rfl rfl rfl).2.1
  · exact (claim_C4_lifecycle_amended.2 envAllOkB rfl rfl rfl).2.2.2.2.1
  · exact ((claim_C4_lifecycle_amended.2 envAllOkB rfl rfl rfl).2.2.2.2.2 rfl rfl).2

/-- C6 counterexample: conversion fails and the cleanup unlink of the scratch
file also fails — the response is the 500 and nothing was uploaded or
persisted, but the scratch file is left on disk, so "no scratch or converted
file is left on disk" does not hold unconditionally. -/
theorem claim_C6_counterexample :
    (handleB envConvFailNoUnlinkB).status = 500 ∧
      (handleB envConvFailNoUnlinkB).record = none ∧
      (handleB envConvFailNoUnlinkB).uploadCalled = false ∧
      (handleB envConvFailNoUnlinkB).tempOnDisk = true := by
  decide

/-- C6 amended: when the conversion step errors, the pipeline aborts without
invoking the upload or the provider, responds 500, creates no record and no
converted file, and — provided the cleanup unlink of the scratch file
succeeds — leaves no scratch or converted file on disk. -/
theorem claim_C6_conversion_abort :
    ∀ e : EnvB, e.writeOk = true → e.convertOk = false →
      (handleB e).status = 500 ∧ (handleB e).body = .errProcessing ∧
        (handleB e).uploadCalled = false ∧ (handleB e).providerCalls = 0 ∧
        (handleB e).streamOpens = 0 ∧ (handleB e).record = none ∧
        (handleB e).convCreatedCount = 0 ∧ (handleB e).convOnDisk = false ∧
        (e.unlinkTempOk = true → (handleB e).tempOnDisk = false) := by
  intro e hw hc
  have hm : mainB e =
      { status := 500, body := .errProcessing, record := none,
        convCreated := false, uploadCalled := false, providerCalls := 0,
        streamOpens := 0, usedLanguage := none } := by
    simp [mainB, hc]
  have hh : handleB e = finishB e (mainB e) := by simp [handleB, hw]
  rw [hh, hm]
  cases hu : e.unlinkTempOk <;> simp [finishB, hu]

/-- C6 witness: a concrete failed conversion aborts with 500, touches neither
upload nor provider, persists nothing, and all scratch files are gone. -/
theorem claim_C6_witness :
    (handleB envConvFailB).status = 500 ∧ (handleB envConvFailB).uploadCalled = false ∧
      (handleB envConvFailB).providerCalls = 0 ∧ (handleB envConvFailB).record = none ∧
      (handleB envConvFailB).tempOnDisk = false := by
  have h := claim_C6_conversion_abort envConvFailB rfl rfl
  exact ⟨h.1, h.2.2.1, h.2.2.2.1, h.2.2.2.2.2.1, h.2.2.2.2.2.2.2.2 rfl⟩

/-- C5: startup (conversion-enabled variant, which checks all five values)
exits with code 1 — before `app.listen` — when any of the five required
configuration values is absent, and proceeds to listen when all five are
present (and the collaborator initialization, also guarded by an
exit-on-failure, succeeds). -/
theorem claim_C5_required_config :
    (∀ e : StartupEnv,
      (e.openaiApiKey = none ∨ e.firebaseProjectId = none ∨
        e.firebaseClientEmail = none ∨ e.firebasePrivateKey = none ∨
        e.firebaseBucketName = none) →
      startupB e = .exited 1) ∧
    (∀ e : StartupEnv, e.openaiApiKey.isSome = true →
      e.firebaseProjectId.isSome = true → e.firebaseClientEmail.isSome = true →
      e.firebasePrivateKey.isSome = true → e.firebaseBucketName.isSome = true →
      e.firebaseInitOk = true → startupB e = .listening) := by
  constructor
  · intro e h
    rcases h with h | h | h | h | h <;> simp [startupB, envCheckB, h]
  · intro e h1 h2 h3 h4 h5 h6
    simp [startupB, envCheckB, h1, h2, h3, h4, h5, h6]

/-- C5 witness: a concrete environment missing only the bucket name exits
with code 1; the complete environment listens. -/
theorem claim_C5_required_config_witness :
    startupB startupNoBucket = .exited 1 ∧ startupB startupAllOk = .listening :=
  ⟨claim_C5_required_config.1 startupNoBucket (Or.inr (Or.inr (Or.inr (Or.inr rfl)))),
   claim_C5_required_config.2 startupAllOk rfl rfl rfl rfl rfl rfl⟩

/-- C7: if transcription succeeds but the Firestore write fails, the client
gets the 500 error body (which carries no transcript) and no record exists;
a 200 response, in either variant, occurs only with the record persisted and
is the only response carrying the transcript. -/
theorem claim_C7_persistence_gate :
    (∀ (e : EnvA) (r : WhisperResponse), e.writeOk = true → e.uploadOk = true →
      (transcribeWithRetry (e.provider (jsOrDefault e.languageParam "es"))
          defaultRetries).1 = .success r →
      e.persistOk = false →
      (handleA e).status = 500 ∧ (handleA e).body = .errProcessing ∧
        (handleA e).record = none) ∧
    (∀ e : EnvA, (handleA e).status = 200 →
      ∃ d, (handleA e).record = some d ∧
        (handleA e).body = .okJson d.transcription savedMessage) ∧
    (∀ (e : EnvB) (r : WhisperResponse), e.writeOk = true → e.convertOk = true →
      e.uploadOk = true →
      (transcribeWithRetry (e.provider (jsOrDefault e.languageParam "es"))
          defaultRetries).1 = .success r →
      e.persistOk = false →
      (handleB e).status = 500 ∧ (handleB e).body = .errProcessing ∧
        (handleB e).record = none) ∧
    (∀ e : EnvB, (handleB e).status = 200 →
      ∃ d, (handleB e).record = some d ∧
        (handleB e).body = .okJson d.transcription savedMessage) := by
  refine ⟨?_, ?_, ?_, ?_⟩
  · intro e r hw hu hres hp
    have hh : handleA e = finishA e (mainA e) := by simp [handleA, hw]
    have htail : (tailA e).status = 500 ∧ (tailA e).body = .errProcessing ∧
        (tailA e).record = none := by
      simp [tailA, pipelineTail, hres, hp]
    have hm : (mainA e).status = 500 ∧ (mainA e).body = .errProcessing ∧
        (mainA e).record = none := by
      simpa [mainA, hu] using htail
    obtain ⟨hs, hb, hr, _⟩ := finishA_proj e (mainA e)
    exact ⟨by rw [hh, hs]; exact hm.1, by rw [hh, hb]; exact hm.2.1,
      by rw [hh, hr]; exact hm.2.2⟩
  · intro e h200
    by_cases hw : e.writeOk = true
    · have hh : handleA e = finishA e (mainA e) := by simp [handleA, hw]
      obtain ⟨hs, hb, hr, _⟩ := finishA_proj e (mainA e)
      rw [hh, hs] at h200
      rw [hh, hr, hb]
      cases hu : e.uploadOk
      · have h500 : (mainA e).status = 500 := by simp [mainA, hu]
        rw [h500] at h200
        exact absurd h200 (by decide)
      · have hms : (mainA e).status = (tailA e).status := by simp [mainA, hu]
        have hmr : (mainA e).record = (tailA e).record := by simp [mainA, hu]
        have hmb : (mainA e).body = (tailA e).body := by simp [mainA, hu]
        rw [hms] at h200
        rw [hmr, hmb]
        cases hres : (transcribeWithRetry
            (e.provider (jsOrDefault e.languageParam "es")) defaultRetries).1 with
        | success r =>
          cases hp : e.persistOk
          · have h500 : (tailA e).status = 500 := by
              simp [tailA, pipelineTail, hres, hp]
            rw [h500] at h200
            exact absurd h200 (by decide)
          · have hd : (tailA e).record =
                some { transcription := r.text,
                       language := jsOrDefault e.languageParam "es",
                       fileURL := fileURLA e.bucketName e.now } := by
              simp [tailA, pipelineTail, hres, hp]
            have hbody : (tailA e).body = .okJson r.text savedMessage := by
              simp [tailA, pipelineTail, hres, hp]
            exact ⟨_, hd, hbody⟩
        | thrown er =>
          have h500 : (tailA e).status = 500 := by simp [tailA, pipelineTail, hres]
          rw [h500] at h200
          exact absurd h200 (by decide)
        | undefinedResult =>
          have h500 : (tailA e).status = 500 := by simp [tailA, pipelineTail, hres]
          rw [h500] at h200
          exact absurd h200 (by decide)
    · have hw' : e.writeOk = false := by
        cases hb2 : e.writeOk
        · rfl
        · exact absurd hb2 hw
      have hh : handleA e = writeFailedOutcome := by
        unfold handleA
        exact if_pos hw'
      rw [hh] at h200
      exact absurd h200 (by decide)
  · intro e r hw hc hu hres hp
    have hh : handleB e = finishB e (mainB e) := by simp [handleB, hw]
    have htail : (tailB e).status = 500 ∧ (tailB e).body = .errProcessing ∧
        (tailB e).record = none := by
      simp [tailB, pipelineTail, hres, hp]
    have hm : (mainB e).status = 500 ∧ (mainB e).body = .errProcessing ∧
        (mainB e).record = none := by
      simpa [mainB, hc, hu] using htail
    obtain ⟨hs, hb, hr, _⟩ := finishB_proj e (mainB e)
    exact ⟨by rw [hh, hs]; exact hm.1, by rw [hh, hb]; exact hm.2.1,
      by rw [hh, hr]; exact hm.2.2⟩
  · intro e h200
    by_cases hw : e.writeOk = true
    · have hh : handleB e = finishB e (mainB e) := by simp [handleB, hw]
      obtain ⟨hs, hb, hr, _⟩ := finishB_proj e (mainB e)
      rw [hh, hs] at h200
      rw [hh, hr, hb]
      cases hc : e.convertOk
      · have h500 : (mainB e).status = 500 := by simp [mainB, hc]
        rw [h500] at h200
        exact absurd h200 (by decide)
      · cases hu : e.uploadOk
        · have h500 : (mainB e).status = 500 := by simp [mainB, hc, hu]
          rw [h500] at h200
          exact absurd h200 (by decide)
        · have hms : (mainB e).status = (tailB e).status := by simp [mainB, hc, hu]
          have hmr : (mainB e).record = (tailB e).record := by simp [mainB, hc, hu]
          have hmb : (mainB e).body = (tailB e).body := by simp [mainB, hc, hu]
          rw [hms] at h200
          rw [hmr, hmb]
          cases hres : (transcribeWithRetry
              (e.provider (jsOrDefault e.languageParam "es")) defaultRetries).1 with
          | success r =>
            cases hp : e.persistOk
            · have h500 : (tailB e).status = 500 := by
                simp [tailB, pipelineTail, hres, hp]
              rw [h500] at h200
              exact absurd h200 (by decide)
            · have hd : (tailB e).record =
                  some { transcription := r.text,
                         language := jsOrDefault e.languageParam "es",
                         fileURL := fileURLB e.bucketName e.now } := by
                simp [tailB, pipelineTail, hres, hp]
              have hbody : (tailB e).body = .okJson r.text savedMessage := by
                simp [tailB, pipelineTail, hres, hp]
              exact ⟨_, hd, hbody⟩
          | thrown er =>
            have h500 : (tailB e).status = 500 := by simp [tailB, pipelineTail, hres]
            rw [h500] at h200
            exact absurd h200 (by decide)
          | undefinedResult =>
            have h500 : (tailB e).status = 500 := by simp [tailB, pipelineTail, hres]
            rw [h500] at h200
            exact absurd h200 (by decide)
    · have hw' : e.writeOk = false := by
        cases hb2 : e.writeOk
        · rfl
        · exact absurd hb2 hw
      have hh : handleB e = writeFailedOutcome := by
        unfold handleB
        exact if_pos hw'
      rw [hh] at h200
      exact absurd h200 (by decide)

/-- C7 witness: with persistence failing after a first-attempt transcription
success, both variants answer 500 with the generic body and no record; the
fully successful run returns 200 carrying exactly the persisted transcript. -/
theorem claim_C7_persistence_gate_witness :
    (handleA envNoPersistA).status = 500 ∧ (handleA envNoPersistA).record = none ∧
      (handleB envNoPersistB).status = 500 ∧ (handleB envNoPersistB).record = none ∧
      (∃ d, (handleA envAllOkA).record = some d ∧
        (handleA envAllOkA).body = .okJson d.transcription savedMessage) := by
  refine ⟨?_, ?_, ?_, ?_, ?_⟩
  · exact (claim_C7_persistence_gate.1 envNoPersistA ⟨"hello world"⟩ rfl rfl
      (by decide) rfl).1
  · exact (claim_C7_persistence_gate.1 envNoPersistA ⟨"hello world"⟩ rfl rfl
      (by decide) rfl).2.2
  · exact (claim_C7_persistence_gate.2.2.1 envNoPersistB ⟨"hello world"⟩ rfl rfl rfl
      (by decide) rfl).1
  · exact (claim_C7_persistence_gate.2.2.1 envNoPersistB ⟨"hello world"⟩ rfl rfl rfl
      (by decide) rfl).2.2
  · exact claim_C7_persistence_gate.2.1 envAllOkA (by decide)

/-- C8 counterexample: a request that supplies the language parameter as the
empty string gets `"es"` used and persisted, not the supplied value — the
`||` default treats every falsy value, including a supplied empty string, as
absent. -/
theorem claim_C8_counterexample :
    envEmptyLangA.languageParam = some "" ∧ (handleA envEmptyLangA).status = 200 ∧
      (handleA envEmptyLangA).usedLanguage = some "es" ∧
      (handleA envEmptyLangA).record =
        some { transcription := "hello world", language := "es",
               fileURL := "gs://bkt/audio/temp_7.webm" } ∧
      ("es" : String) ≠ "" := by
  decide

/-- C8 amended: an omitted — or empty — language parameter makes both the
transcription call and the persisted record use `"es"`; any non-empty
supplied value is used and persisted exactly. -/
theorem claim_C8_language_default :
    (∀ e : EnvA, e.writeOk = true → e.uploadOk = true →
      (handleA e).usedLanguage = some (jsOrDefault e.languageParam "es")) ∧
    (∀ (e : EnvA) (d : RecordDoc), (handleA e).record = some d →
      d.language = jsOrDefault e.languageParam "es") ∧
    (∀ e : EnvB, e.writeOk = true → e.convertOk = true → e.uploadOk = true →
      (handleB e).usedLanguage = some (jsOrDefault e.languageParam "es")) ∧
    (∀ (e : EnvB) (d : RecordDoc), (handleB e).record = some d →
      d.language = jsOrDefault e.languageParam "es") ∧
    jsOrDefault none "es" = "es" ∧
    (∀ l : String, l ≠ "" → jsOrDefault (some l) "es" = l) ∧
    jsOrDefault (some "") "es" = "es" := by
  refine ⟨?_, ?_, ?_, ?_, rfl, ?_, rfl⟩
  · intro e hw hu
    have hh : handleA e = finishA e (mainA e) := by simp [handleA, hw]
    obtain ⟨_, _, _, _, _, _, hul, _⟩ := finishA_proj e (mainA e)
    rw [hh, hul]
    simp [mainA, hu]
  · intro e d hrec
    by_cases hw : e.writeOk = true
    · have hh : handleA e = finishA e (mainA e) := by simp [handleA, hw]
      obtain ⟨_, _, hr, _⟩ := finishA_proj e (mainA e)
      rw [hh, hr] at hrec
      cases hu : e.uploadOk
      · rw [show (mainA e).record = none by simp [mainA, hu]] at hrec
        exact absurd hrec (by simp)
      · have hmr : (mainA e).record = (tailA e).record := by simp [mainA, hu]
        rw [hmr] at hrec
        cases hres : (transcribeWithRetry
            (e.provider (jsOrDefault e.languageParam "es")) defaultRetries).1 with
        | success r =>
          cases hp : e.persistOk
          · rw [show (tailA e).record = none by
              simp [tailA, pipelineTail, hres, hp]] at hrec
            exact absurd hrec (by simp)
          · have hd : (tailA e).record =
                some { transcription := r.text,
                       language := jsOrDefault e.languageParam "es",
                       fileURL := fileURLA e.bucketName e.now } := by
              simp [tailA, pipelineTail, hres, hp]
            rw [hd] at hrec
            simp only [Option.some.injEq] at hrec
            rw [← hrec]
        | thrown er =>
          rw [show (tailA e).record = none by simp [tailA, pipelineTail, hres]] at hrec
          exact absurd hrec (by simp)
        | undefinedResult =>
          rw [show (tailA e).record = none by simp [tailA, pipelineTail, hres]] at hrec
          exact absurd hrec (by simp)
    · have hw' : e.writeOk = false := by
        cases hb2 : e.writeOk
        · rfl
        · exact absurd hb2 hw
      have hh : handleA e = writeFailedOutcome := by
        unfold handleA
        exact if_pos hw'
      rw [hh] at hrec
      exact absurd hrec (by simp [writeFailedOutcome])
  · intro e hw hc hu
    have hh : handleB e = finishB e (mainB e) := by simp [handleB, hw]
    obtain ⟨_, _, _, _, _, _, hul, _⟩ := finishB_proj e (mainB e)
    rw [hh, hul]
    simp [mainB, hc, hu]
  · intro e d hrec
    by_cases hw : e.writeOk = true
    · have hh : handleB e = finishB e (mainB e) := by simp [handleB, hw]
      obtain ⟨_, _, hr, _⟩ := finishB_proj e (mainB e)
      rw [hh, hr] at hrec
      cases hc : e.convertOk
      · rw [show (mainB e).record = none by simp [mainB, hc]] at hrec
        exact absurd hrec (by simp)
      · cases hu : e.uploadOk
        · rw [show (mainB e).record = none by simp [mainB, hc, hu]] at hrec
          exact absurd hrec (by simp)
        · have hmr : (mainB e).record = (tailB e).record := by simp [mainB, hc, hu]
          rw [hmr] at hrec
          cases hres : (transcribeWithRetry
              (e.provider (jsOrDefault e.languageParam "es")) defaultRetries).1 with
          | success r =>
            cases hp : e.persistOk
            · rw [show (tailB e).record = none by
                simp [tailB, pipelineTail, hres, hp]] at hrec
              exact absurd hrec (by simp)
            · have hd : (tailB e).record =
                  some { transcription := r.text,
                         language := jsOrDefault e.languageParam "es",
                         fileURL := fileURLB e.bucketName e.now } := by
                simp [tailB, pipelineTail, hres, hp]
              rw [hd] at hrec
              simp only [Option.some.injEq] at hrec
              rw [← hrec]
          | thrown er =>
            rw [show (tailB e).record = none by
              simp [tailB, pipelineTail, hres]] at hrec
            exact absurd hrec (by simp)
          | undefinedResult =>
            rw [show (tailB e).record = none by
              simp [tailB, pipelineTail, hres]] at hrec
            exact absurd hrec (by simp)
    · have hw' : e.writeOk = false := by
        cases hb2 : e.writeOk
        · rfl
        · exact absurd hb2 hw
      have hh : handleB e = writeFailedOutcome := by
        unfold handleB
        exact if_pos hw'
      rw [hh] at hrec
      exact absurd hrec (by simp [writeFailedOutcome])
  · intro l hl
    simp [jsOrDefault, hl]

/-- C8 witness: a supplied `"en"` is used; the default path and the non-empty
supplied path of the `||` fallback behave as amended on concrete inputs. -/
theorem claim_C8_language_default_witness :
    (handleA envLangEnA).usedLanguage = some "en" ∧
      (handleB envAllOkB).usedLanguage = some "es" ∧
      ({ transcription := "hello world", language := "es",
         fileURL := "gs://bkt/audio/temp_7.webm" } : RecordDoc).language =
        jsOrDefault envAllOkA.languageParam "es" ∧
      jsOrDefault (some "fr") "es" = "fr" := by
  refine ⟨?_, ?_, ?_, ?_⟩
  · have h := claim_C8_language_default.1 envLangEnA rfl rfl
    simpa [jsOrDefault] using h
  · have h := claim_C8_language_default.2.2.1 envAllOkB rfl rfl rfl
    simpa [jsOrDefault] using h
  · exact claim_C8_language_default.2.1 envAllOkA
      { transcription := "hello world", language := "es",
        fileURL := "gs://bkt/audio/temp_7.webm" } (by decide)
  · exact claim_C8_language_default.2.2.2.2.2.1 "fr" (by decide)

/-- C9: in the conversion variant, when unlinking the original scratch file
throws, the unlink of the converted file is never attempted: the scratch file
stays, the cleanup error is logged, and — if conversion had succeeded — the
converted file remains on disk even though cleanup ran. -/
theorem claim_C9_sequential_unlink :
    ∀ e : EnvB, e.writeOk = true → e.unlinkTempOk = false →
      (handleB e).convUnlinkAttempted = false ∧ (handleB e).tempOnDisk = true ∧
        (handleB e).cleanupErrorLogged = true ∧
        (e.convertOk = true → (handleB e).convOnDisk = true) := by
  intro e hw hu
  have hh : handleB e = finishB e (mainB e) := by simp [handleB, hw]
  rw [hh]
  refine ⟨?_, ?_, ?_, ?_⟩
  · simp [finishB, hu]
  · simp [finishB, hu]
  · simp [finishB, hu]
  · intro hc
    simp [finishB, hu]
    exact mainB_convCreated e hc

/-- C9 witness: a concrete fully successful conversion-variant request whose
temp-file unlink fails leaves the converted file on disk with the converted
unlink never attempted. -/
theorem claim_C9_sequential_unlink_witness :
    (handleB envNoUnlinkB).convUnlinkAttempted = false ∧
      (handleB envNoUnlinkB).tempOnDisk = true ∧
      (handleB envNoUnlinkB).convOnDisk = true := by
  have h := claim_C9_sequential_unlink envNoUnlinkB rfl rfl
  exact ⟨h.1, h.2.1, h.2.2.2 rfl⟩

end TranscriptionMS
